import Mathlib

/-!
# Verification of the Smart CRM SaaS backend against its specification

Shallow embedding of the parts of the Smart CRM SaaS repository
(FastAPI backend + Next.js frontend) that the checked claims are about:

* `app/auth/auth.py` — JWT creation/verification (`create_access_token`,
  `verify_token`) built on python-jose 3.3.0 (pinned in requirements.txt);
* `app/models/client_model.py` — the `Client` ORM model with its derived
  properties `total_project_value` and `active_projects_count`;
* `app/api/endpoints/project_endpoints.py` — `create_project` (client /
  developer existence checks) and `get_projects` (offset/limit pagination);
* `app/schemas/user_schemas.py` — `UserCreate.validate_password`;
* the backup service and the `Project.is_overdue` / statistics code, whose
  bodies are not present in readable form in the repository snapshot and are
  therefore modelled from the specification (each such definition is marked
  `Modelled from the spec:` in its doc comment).

Machine integers do not occur; Python ints are `Int`/`Nat`, Python floats
(budgets, rates) are modelled as `ℚ`, timestamps as `Int` seconds.
-/

set_option autoImplicit false

namespace SmartCRM

/-! ## JWT payloads as Python dicts

`create_access_token` receives a `dict`, copies it and calls
`to_encode.update({"exp": expire})`.  A Python dict is modelled as an
association list with unique-key update semantics: `dictSet` overwrites an
existing binding in place (keeping its position, as `dict.update` does) and
otherwise appends the new binding at the end. -/

/-- A JWT claim value: the payloads used by the app carry strings
(`sub`, roles) and integers (the `exp` timestamp). -/
inductive ClaimVal where
  | str (s : String)
  | int (n : Int)
  deriving DecidableEq, Repr

/-- A JWT payload: a Python dict from claim name to claim value. -/
abbrev Payload := List (String × ClaimVal)

/-- Python `d[key]` / `d.get(key)` on the association-list model. -/
def dictGet : Payload → String → Option ClaimVal
  | [], _ => none
  | (k, v) :: rest, key => if k = key then some v else dictGet rest key

/-- Python `d.update({key: val})`: overwrite in place or append. -/
def dictSet : Payload → String → ClaimVal → Payload
  | [], key, val => [(key, val)]
  | (k, v) :: rest, key, val =>
      if k = key then (k, val) :: rest else (k, v) :: dictSet rest key val

/-- `app/core/config.py` settings consumed by `app/auth/auth.py`
(`SECRET_KEY = settings.SECRET_KEY` etc. at module level).  The auth
functions are parameterised over these values. -/
structure Settings where
  SECRET_KEY : String
  ALGORITHM : String
  ACCESS_TOKEN_EXPIRE_MINUTES : Int
  REFRESH_TOKEN_EXPIRE_DAYS : Int
  deriving DecidableEq, Repr

/-- A JWT string, as produced/consumed by python-jose.  `jose.jwt.encode`
yields a well-formed signed token (`signed payload key alg`); every other
string an attacker may present is `malformed`.  The cryptographic guarantee
of the library — a signature only verifies under the key and algorithm that
produced it — is what makes `signed` keep its key and algorithm. -/
inductive Token where
  | signed (payload : Payload) (key : String) (alg : String)
  | malformed (s : String)
  deriving DecidableEq, Repr

/-- Exceptions raised by `jose.jwt.decode` (subclasses of `JWTError`). -/
inductive JoseError where
  | jwtError
  | expiredSignatureError
  deriving DecidableEq, Repr

/-- `jose.jwt.encode(claims, key, algorithm=...)`. -/
def jose_encode (payload : Payload) (key alg : String) : Token :=
  Token.signed payload key alg

/-- `jose.jwt.decode(token, key, algorithms=[...])` at wall-clock time
`now` (seconds): raises `JWTError` on a malformed token, a key mismatch or
an algorithm outside the allow-list; validates the `exp` claim when
present, raising `ExpiredSignatureError` when `exp < now` (zero leeway);
otherwise returns the decoded claims. -/
def jose_decode (t : Token) (key : String) (algorithms : List String)
    (now : Int) : Except JoseError Payload :=
  match t with
  | Token.malformed _ => Except.error JoseError.jwtError
  | Token.signed p k a =>
      if k = key ∧ a ∈ algorithms then
        match dictGet p "exp" with
        | some (ClaimVal.int e) =>
            if e < now then Except.error JoseError.expiredSignatureError
            else Except.ok p
        | some _ => Except.error JoseError.jwtError
        | none => Except.ok p
      else Except.error JoseError.jwtError

/-- The public attributes of the module `jose.jwt` in python-jose 3.3.0
(the version pinned by requirements.txt): the functions it defines and the
names it imports at module level.  `PyJWTError` — the base exception of the
*other* JWT library, PyJWT — is not among them. -/
def joseJwtModuleAttrs : List String :=
  ["encode", "decode", "get_unverified_header", "get_unverified_headers",
   "get_unverified_claims", "jws", "jwk", "ALGORITHMS",
   "JWTError", "JWSError", "ExpiredSignatureError", "JWTClaimsError",
   "calculate_at_hash", "timedelta_total_seconds"]

/-- A Python exception escaping `verify_token`. -/
inductive PyError where
  | attributeError (msg : String)
  deriving DecidableEq, Repr

/-- The `expire` computed by `create_access_token`:
`datetime.utcnow() + expires_delta` when a delta (in seconds) is supplied,
else `datetime.utcnow() + timedelta(minutes=ACCESS_TOKEN_EXPIRE_MINUTES)`. -/
def accessTokenExpiry (s : Settings) (expires_delta : Option Int)
    (now : Int) : Int :=
  match expires_delta with
  | some d => now + d
  | none => now + s.ACCESS_TOKEN_EXPIRE_MINUTES * 60

/-- `create_access_token(data, expires_delta=None)` from `app/auth/auth.py`:
copy the claims dict, set `exp`, and sign with `SECRET_KEY` / `ALGORITHM`. -/
def create_access_token (s : Settings) (data : Payload)
    (expires_delta : Option Int) (now : Int) : Token :=
  jose_encode (dictSet data "exp" (ClaimVal.int (accessTokenExpiry s expires_delta now)))
    s.SECRET_KEY s.ALGORITHM

/-- `verify_token(token)` from `app/auth/auth.py`:

```python
try:
    payload = jwt.decode(token, SECRET_KEY, algorithms=[ALGORITHM])
    return payload
except jwt.PyJWTError:
    return None
```

with `from jose import jwt`.  Python evaluates the exception-class
expression `jwt.PyJWTError` only once an exception is being handled; since
`jose.jwt` has no attribute `PyJWTError` (see `joseJwtModuleAttrs`), that
attribute lookup itself raises `AttributeError`, which escapes the
function.  The branch on `joseJwtModuleAttrs` embeds exactly this: were the
attribute present its class would match any `JWTError` and the function
would return `None`; as it is absent, every decode failure turns into an
`AttributeError`. -/
def verify_token (s : Settings) (token : Token) (now : Int) :
    Except PyError (Option Payload) :=
  match jose_decode token s.SECRET_KEY [s.ALGORITHM] now with
  | Except.ok payload => Except.ok (some payload)
  | Except.error _ =>
      if "PyJWTError" ∈ joseJwtModuleAttrs then Except.ok none
      else Except.error (PyError.attributeError
        "module jose.jwt has no attribute PyJWTError")

/-- `dictSet` really stores the binding: looking the key back up returns
the value just written. -/
theorem dictGet_dictSet (d : Payload) (key : String) (val : ClaimVal) :
    dictGet (dictSet d key val) key = some val := by
  induction d with
  | nil => simp [dictSet, dictGet]
  | cons hd tl ih =>
      obtain ⟨k, v⟩ := hd
      by_cases hk : k = key
      · simp [dictSet, dictGet, hk]
      · simp [dictSet, dictGet, hk, ih]

/-- C1: the claim says `verify_token` returns `None` on every decode or
signature failure.  In fact the handler names `jwt.PyJWTError`, an
attribute that python-jose's `jwt` module does not have, so handling any
decode error raises `AttributeError` instead of returning `None`.  This
theorem evaluates the embedded code at a failing input: a malformed token
makes `verify_token` raise, for the concrete settings used below. -/
theorem verify_token_attributeError_on_malformed :
    verify_token ⟨"change-me", "HS256", 30, 7⟩ (Token.malformed "not.a.jwt") 0
      = Except.error (PyError.attributeError
          "module jose.jwt has no attribute PyJWTError") := by
  rfl

/-- C5: a token produced by `create_access_token` from claims `d`, when
verified with the same settings (secret and algorithm) at any time `vt` not
past the token's expiry, decodes successfully and yields exactly `d`
extended with the `exp` claim. -/
theorem create_access_token_roundtrip (s : Settings) (d : Payload)
    (expires_delta : Option Int) (issued vt : Int)
    (h : vt ≤ accessTokenExpiry s expires_delta issued) :
    verify_token s (create_access_token s d expires_delta issued) vt
      = Except.ok (some (dictSet d "exp"
          (ClaimVal.int (accessTokenExpiry s expires_delta issued)))) := by
  simp [verify_token, create_access_token, jose_encode, jose_decode,
    dictGet_dictSet, Int.not_lt.mpr h]

/-- C5 witness: the round trip evaluated at concrete settings, claims
`{sub: "alice"}`, the default expiry and verification at issue time. -/
theorem create_access_token_roundtrip_witness :
    verify_token ⟨"change-me", "HS256", 30, 7⟩
        (create_access_token ⟨"change-me", "HS256", 30, 7⟩
          [("sub", ClaimVal.str "alice")] none 0) 0
      = Except.ok (some (dictSet [("sub", ClaimVal.str "alice")] "exp"
          (ClaimVal.int (accessTokenExpiry ⟨"change-me", "HS256", 30, 7⟩ none 0)))) :=
  create_access_token_roundtrip ⟨"change-me", "HS256", 30, 7⟩
    [("sub", ClaimVal.str "alice")] none 0 0 (by decide)

/-! ## Client and Project ORM models

`app/models/client_model.py` is present in the snapshot; its derived
properties are

```python
@property
def total_project_value(self) -> float:
    return sum(project.budget for project in self.projects if project.budget)

@property
def active_projects_count(self) -> int:
    active_statuses = ["active", "in_progress", "development"]
    return len([p for p in self.projects if p.status in active_statuses])
```

Budgets (`Float` columns, nullable) are modelled as `Option ℚ`, dates as
`Option Int` (seconds). -/

/-- A row of the `projects` table, restricted to the columns the claims
touch (`status`, `budget`, `end_date`). -/
structure Project where
  id : Nat
  title : String
  status : String
  budget : Option ℚ
  end_date : Option Int
  deriving DecidableEq, Repr

/-- A `Client` row together with its related `projects` (the ORM
relationship the derived properties iterate over). -/
structure Client where
  id : Nat
  company_name : String
  projects : List Project
  deriving DecidableEq, Repr

/-- Python truthiness of a nullable float `project.budget`: `None` and
`0.0` are falsy, everything else truthy. -/
def budgetTruthy : Option ℚ → Bool
  | none => false
  | some b => decide (b ≠ 0)

/-- `Client.total_project_value`: sum of `project.budget` over
`self.projects`, the generator skipping projects whose `budget` is falsy. -/
def Client.total_project_value (c : Client) : ℚ :=
  ((c.projects.filter (fun p => budgetTruthy p.budget)).map
    (fun p => p.budget.getD 0)).sum

/-- `Client.active_projects_count`: length of the list of projects whose
`status` is in `active_statuses`. -/
def Client.active_projects_count (c : Client) : Nat :=
  let active_statuses : List String := ["active", "in_progress", "development"]
  (c.projects.filter (fun p => decide (p.status ∈ active_statuses))).length

/-- Modelled from the spec: the `ProjectStatus` enumeration of
`app/models/project_model.py` is not present in the snapshot; spec §3
documents `status ∈ {planning, in_progress, on_hold, completed,
cancelled}`. -/
def documentedProjectStatuses : List String :=
  ["planning", "in_progress", "on_hold", "completed", "cancelled"]

/-- Modelled from the spec: the body of `Project.is_overdue` in
`app/models/project_model.py` is absent from the snapshot (only corrupted
bytecode of its callers survives).  Spec: "is_overdue derived from
end_date vs. now and status not in {completed, cancelled}" — true exactly
when the project has an `end_date` in the past and its status is neither
`completed` nor `cancelled`. -/
def Project.is_overdue (now : Int) (p : Project) : Bool :=
  match p.end_date with
  | some e => decide (e < now) && !(["completed", "cancelled"].contains p.status)
  | none => false

/-- Filtering out the falsy budgets does not change the sum: a missing
budget contributes `0` through `getD 0` and a zero budget contributes `0`
literally. -/
theorem sum_budgets_filter_truthy (ps : List Project) :
    ((ps.filter (fun p => budgetTruthy p.budget)).map
        (fun p => p.budget.getD 0)).sum
      = (ps.map (fun p => p.budget.getD 0)).sum := by
  induction ps with
  | nil => rfl
  | cons p rest ih =>
      cases hb : p.budget with
      | none =>
          have hB : budgetTruthy none = false := rfl
          simp [List.filter_cons, hb, hB, ih]
      | some b =>
          by_cases h0 : b = 0
          · subst h0
            have hB : budgetTruthy (some 0) = false := by
              simp [budgetTruthy]
            simp [List.filter_cons, hb, hB, ih]
          · have hB : budgetTruthy (some b) = true := by
              simp [budgetTruthy, h0]
            simp [List.filter_cons, hb, hB, ih]

/-- C6: for every Client, `total_project_value` equals the sum of the
budgets of all of that client's projects, a project with a missing budget
contributing nothing; it is a function of the related `projects` rows (the
model has no stored column for it). -/
theorem total_project_value_eq_sum_budgets (c : Client) :
    c.total_project_value = (c.projects.map (fun p => p.budget.getD 0)).sum :=
  sum_budgets_filter_truthy c.projects

/-- C9: `active_projects_count` counts exactly the projects whose status
is `active`, `in_progress` or `development`; appending a project with
status `planning` or `on_hold` leaves the count unchanged; appending one
with status `active` or `development` increments it even though those two
statuses lie outside the documented status enumeration. -/
theorem active_projects_count_spec (c : Client) (p : Project) :
    (c.active_projects_count
        = (c.projects.filter (fun q => decide (q.status = "active"
            ∨ q.status = "in_progress" ∨ q.status = "development"))).length)
    ∧ ((p.status = "planning" ∨ p.status = "on_hold") →
        ({ c with projects := c.projects ++ [p] } : Client).active_projects_count
          = c.active_projects_count)
    ∧ ((p.status = "active" ∨ p.status = "development") →
        ({ c with projects := c.projects ++ [p] } : Client).active_projects_count
          = c.active_projects_count + 1)
    ∧ "active" ∉ documentedProjectStatuses
    ∧ "development" ∉ documentedProjectStatuses := by
  refine ⟨?_, ?_, ?_, by decide, by decide⟩
  · simp only [Client.active_projects_count]
    congr 1
    apply List.filter_congr
    intro q _
    simp [List.mem_cons]
  · intro hp
    simp only [Client.active_projects_count]
    rcases hp with hp | hp <;>
      simp [List.filter_append, List.filter_cons, hp]
  · intro hp
    simp only [Client.active_projects_count]
    rcases hp with hp | hp <;>
      simp [List.filter_append, List.filter_cons, hp]

/-- A concrete client used to witness the `active_projects_count` claim. -/
def clientAcme : Client :=
  { id := 1, company_name := "Acme",
    projects := [⟨1, "site", "in_progress", none, none⟩] }

/-- A concrete `planning` project used in the C9 witness. -/
def projPlanning : Project := ⟨2, "app", "planning", none, none⟩

/-- A concrete `development` project used in the C9 witness. -/
def projDevelopment : Project := ⟨3, "api", "development", none, none⟩

/-- C9 witness: on a concrete client with one `in_progress` project,
appending a `planning` project keeps the count unchanged, appending a
`development` project increments it. -/
theorem active_projects_count_spec_witness :
    ({ clientAcme with
        projects := clientAcme.projects ++ [projPlanning] } : Client).active_projects_count
      = clientAcme.active_projects_count
    ∧ ({ clientAcme with
        projects := clientAcme.projects ++ [projDevelopment] } : Client).active_projects_count
      = clientAcme.active_projects_count + 1 :=
  ⟨(active_projects_count_spec clientAcme projPlanning).2.1 (Or.inl rfl),
   (active_projects_count_spec clientAcme projDevelopment).2.2.1 (Or.inr rfl)⟩

/-- C4: a project whose `end_date` lies in the past is overdue whenever
its status is neither `completed` nor `cancelled` (in particular when it
is `in_progress`), and not overdue when its status is `completed`. -/
theorem project_is_overdue_spec (p : Project) (e now : Int)
    (h1 : p.end_date = some e) (h2 : e < now) :
    (p.status ≠ "completed" → p.status ≠ "cancelled" →
        Project.is_overdue now p = true)
    ∧ (p.status = "completed" → Project.is_overdue now p = false) := by
  constructor
  · intro hc hx
    simp [Project.is_overdue, h1, h2, List.contains_cons, hc, hx]
  · intro hc
    simp [Project.is_overdue, h1, h2, hc]

/-- C4 witness: the same concrete past-deadline project is overdue while
`in_progress` and not overdue once `completed`. -/
theorem project_is_overdue_spec_witness :
    Project.is_overdue 100 ⟨1, "site", "in_progress", none, some 50⟩ = true
    ∧ Project.is_overdue 100 ⟨1, "site", "completed", none, some 50⟩ = false :=
  ⟨(project_is_overdue_spec ⟨1, "site", "in_progress", none, some 50⟩ 50 100
      rfl (by decide)).1 (by decide) (by decide),
   (project_is_overdue_spec ⟨1, "site", "completed", none, some 50⟩ 50 100
      rfl (by decide)).2 rfl⟩

/-! ## Project endpoints (`app/api/endpoints/project_endpoints.py`)

`create_project` looks up the referenced `Client` row (404 "Client not
found" when absent), then the referenced developer when one is given
(404 "Developer not found"), and only then adds and commits the new row.
`get_projects` paginates with `query.offset(skip).limit(limit)` and
reports `total = query.count()`. -/

/-- The `ProjectCreate` request schema, restricted to the fields the
claims touch. -/
structure ProjectCreate where
  title : String
  client_id : Nat
  developer_id : Option Nat
  deriving DecidableEq, Repr

/-- An HTTP error raised by an endpoint (`HTTPException`). -/
inductive HTTPError where
  | notFound (detail : String)
  deriving DecidableEq, Repr

/-- The database visible to the project endpoints: the ids of existing
`clients` and `users` rows, and the `projects` table (stored as the
column data each insert carried). -/
structure Database where
  clients : List Nat
  users : List Nat
  projects : List ProjectCreate
  deriving DecidableEq, Repr

/-- `create_project(project_data, db)`: 404 "Client not found" when
`client_id` references no client; 404 "Developer not found" when a
`developer_id` is supplied and references no user; otherwise insert and
return the new row. -/
def create_project (db : Database) (pd : ProjectCreate) :
    Database × Except HTTPError ProjectCreate :=
  if pd.client_id ∈ db.clients then
    match pd.developer_id with
    | some did =>
        if did ∈ db.users then
          ({ db with projects := db.projects ++ [pd] }, Except.ok pd)
        else (db, Except.error (HTTPError.notFound "Developer not found"))
    | none => ({ db with projects := db.projects ++ [pd] }, Except.ok pd)
  else (db, Except.error (HTTPError.notFound "Client not found"))

/-- `get_projects(skip, limit, ...)` with no search or filters: the page
`query.offset(skip).limit(limit).all()` paired with
`total = query.count()`. -/
def get_projects (rows : List Project) (skip limit : Nat) :
    List Project × Nat :=
  ((rows.drop skip).take limit, rows.length)

/-- C3: creating a project against a nonexistent `client_id` fails with a
404 naming the missing entity ("Client not found") and leaves the
projects table unchanged. -/
theorem create_project_missing_client (db : Database) (pd : ProjectCreate)
    (h : pd.client_id ∉ db.clients) :
    (create_project db pd).2 = Except.error (HTTPError.notFound "Client not found")
    ∧ (create_project db pd).1.projects = db.projects := by
  simp [create_project, h]

/-- C3 witness: a concrete database knowing only client 1, asked to
create a project for client 99. -/
theorem create_project_missing_client_witness :
    (create_project ⟨[1], [], []⟩ ⟨"site", 99, none⟩).2
        = Except.error (HTTPError.notFound "Client not found")
    ∧ (create_project ⟨[1], [], []⟩ ⟨"site", 99, none⟩).1.projects
        = (⟨[1], [], []⟩ : Database).projects :=
  create_project_missing_client ⟨[1], [], []⟩ ⟨"site", 99, none⟩ (by decide)

/-- C8: over any fixed collection of 15 rows, the page `skip=0, limit=10`
has 10 records, the page `skip=10, limit=10` has the remaining 5, the two
pages share no record (for distinct rows), and concatenated in order they
are exactly the original collection — the ordering is consistent across
the two calls. -/
theorem get_projects_pagination (rows : List Project)
    (hlen : rows.length = 15) (hnd : rows.Nodup) :
    (get_projects rows 0 10).1.length = 10
    ∧ (get_projects rows 10 10).1.length = 5
    ∧ (get_projects rows 0 10).1.Disjoint (get_projects rows 10 10).1
    ∧ (get_projects rows 0 10).1 ++ (get_projects rows 10 10).1 = rows := by
  have htake : (rows.drop 10).take 10 = rows.drop 10 :=
    List.take_of_length_le (by simp [hlen])
  refine ⟨?_, ?_, ?_, ?_⟩
  · simp [get_projects, hlen]
  · simp [get_projects, hlen]
  · simp only [get_projects, List.drop_zero, htake]
    exact List.disjoint_take_drop hnd (le_refl 10)
  · simp only [get_projects, List.drop_zero, htake]
    exact List.take_append_drop 10 rows

/-- Fifteen distinct concrete project rows, seeding the C8 witness. -/
def rows15 : List Project :=
  (List.range 15).map (fun i => ⟨i, "p", "planning", none, none⟩)

/-- C8 witness: the pagination facts evaluated on the 15 seeded rows. -/
theorem get_projects_pagination_witness :
    (get_projects rows15 0 10).1.length = 10
    ∧ (get_projects rows15 10 10).1.length = 5
    ∧ (get_projects rows15 0 10).1.Disjoint (get_projects rows15 10 10).1
    ∧ (get_projects rows15 0 10).1 ++ (get_projects rows15 10 10).1 = rows15 :=
  get_projects_pagination rows15 (by rfl) (by decide)

/-! ## Backup routine and statistics (modelled from the spec)

The bodies of `app/services/backup_service.py` and of the statistics
aggregation only survive in the snapshot as corrupted bytecode, so they
are modelled from the specification (§4.4 and §4.3). -/

/-- A file system: paths mapped to byte contents (bytes as `Nat`). -/
structure FileSystem where
  files : List (String × List Nat)
  deriving DecidableEq, Repr

/-- Reading a path: the first entry stored under it, if any. -/
def FileSystem.read (fs : FileSystem) (path : String) : Option (List Nat) :=
  match fs.files.find? (fun e => decide (e.1 = path)) with
  | some e => some e.2
  | none => none

/-- Writing a path: record the new contents. -/
def FileSystem.write (fs : FileSystem) (path : String)
    (contents : List Nat) : FileSystem :=
  ⟨(path, contents) :: fs.files⟩

/-- Modelled from the spec: `create_database_backup` in
`app/services/backup_service.py` is absent from the snapshot (only its
caller `backup_endpoints.py` survives).  Spec §4.4: fails with a "source
file missing" error if the database file cannot be located — creating no
backup file — otherwise performs a byte-level copy to a timestamped path
in the backup directory and returns the new file's path. -/
def create_database_backup (fs : FileSystem)
    (dbPath backupDir timestamp : String) :
    FileSystem × Except String String :=
  match fs.read dbPath with
  | none => (fs, Except.error ("source file missing: " ++ dbPath))
  | some contents =>
      let dest := backupDir ++ "/backup_" ++ timestamp ++ ".db"
      (fs.write dest contents, Except.ok dest)

/-- C2: when the database file is absent the backup routine fails with the
"source file missing" error and the file system is unchanged (no backup
file is created); when the file is present it writes a byte-identical copy
at the timestamped path inside the backup directory, returns that path,
and the copy reads back as the original bytes. -/
theorem create_database_backup_spec (fs1 fs2 : FileSystem)
    (dbPath backupDir ts : String) (contents : List Nat)
    (hmiss : fs1.read dbPath = none)
    (hhit : fs2.read dbPath = some contents) :
    create_database_backup fs1 dbPath backupDir ts
        = (fs1, Except.error ("source file missing: " ++ dbPath))
    ∧ create_database_backup fs2 dbPath backupDir ts
        = (fs2.write (backupDir ++ "/backup_" ++ ts ++ ".db") contents,
            Except.ok (backupDir ++ "/backup_" ++ ts ++ ".db"))
    ∧ (fs2.write (backupDir ++ "/backup_" ++ ts ++ ".db") contents).read
        (backupDir ++ "/backup_" ++ ts ++ ".db") = some contents := by
  refine ⟨?_, ?_, ?_⟩
  · simp [create_database_backup, hmiss]
  · simp [create_database_backup, hhit]
  · simp [FileSystem.read, FileSystem.write, List.find?]

/-- C2 witness: an empty file system versus one holding `smart_crm.db`
with three bytes, backed up into `backups` at a concrete timestamp. -/
theorem create_database_backup_spec_witness :
    create_database_backup ⟨[]⟩ "smart_crm.db" "backups" "20250712_120000"
        = (⟨[]⟩, Except.error ("source file missing: " ++ "smart_crm.db"))
    ∧ create_database_backup ⟨[("smart_crm.db", [83, 81, 76])]⟩
          "smart_crm.db" "backups" "20250712_120000"
        = (FileSystem.write ⟨[("smart_crm.db", [83, 81, 76])]⟩
            ("backups" ++ "/backup_" ++ "20250712_120000" ++ ".db") [83, 81, 76],
            Except.ok ("backups" ++ "/backup_" ++ "20250712_120000" ++ ".db"))
    ∧ (FileSystem.write ⟨[("smart_crm.db", [83, 81, 76])]⟩
          ("backups" ++ "/backup_" ++ "20250712_120000" ++ ".db") [83, 81, 76]).read
          ("backups" ++ "/backup_" ++ "20250712_120000" ++ ".db")
        = some [83, 81, 76] :=
  create_database_backup_spec ⟨[]⟩ ⟨[("smart_crm.db", [83, 81, 76])]⟩
    "smart_crm.db" "backups" "20250712_120000" [83, 81, 76] (by rfl) (by rfl)

/-- Modelled from the spec: the completion-rate percentage of the project
statistics endpoint (`get_project_stats`), whose body survives only as
corrupted bytecode.  Spec §4.3: a percentage over an empty set of rows is
defined to yield zero rather than a division-by-zero error. -/
def completion_rate (projects : List Project) : ℚ :=
  if projects.length = 0 then 0
  else ((projects.filter (fun p => decide (p.status = "completed"))).length : ℚ)
        / (projects.length : ℚ) * 100

/-- Modelled from the spec: the average-duration ratio of the same
statistics endpoint, guarded the same way on an empty set. -/
def average_project_duration (durations : List ℚ) : ℚ :=
  if durations.length = 0 then 0
  else durations.sum / (durations.length : ℚ)

/-- C7: both derived-statistics ratios evaluate to zero on an empty set of
rows — the guard yields `0` instead of dividing by the zero count — and
each is a pure function of the current rows. -/
theorem stats_empty_set_ratios_zero :
    completion_rate [] = 0 ∧ average_project_duration [] = 0 :=
  ⟨rfl, rfl⟩

/-! ## User creation schema (`app/schemas/user_schemas.py`)

`UserCreate.validate_password` raises `ValueError` with a field message
when the password is shorter than 8 characters or lacks an uppercase
letter, a lowercase letter or a digit, and returns the password
otherwise. -/

/-- `UserCreate.validate_password(v)`: the pydantic validator, run on the
request payload before any database access. -/
def validate_password (v : String) : Except String String :=
  if v.length < 8 then
    Except.error "Password must be at least 8 characters long"
  else if !v.data.any Char.isUpper then
    Except.error "Password must contain at least one uppercase letter"
  else if !v.data.any Char.isLower then
    Except.error "Password must contain at least one lowercase letter"
  else if !v.data.any Char.isDigit then
    Except.error "Password must contain at least one digit"
  else Except.ok v

/-- C10: the `UserCreate` schema accepts a password exactly when it has at
least 8 characters and contains an uppercase letter, a lowercase letter
and a digit; every other password is rejected with a field-level
validation error. -/
theorem validate_password_spec (v : String) :
    (∃ r, validate_password v = Except.ok r)
      ↔ (8 ≤ v.length ∧ v.data.any Char.isUpper = true
          ∧ v.data.any Char.isLower = true ∧ v.data.any Char.isDigit = true) := by
  unfold validate_password
  by_cases h1 : v.length < 8
  · simp [h1]
  · by_cases h2 : v.data.any Char.isUpper <;>
    by_cases h3 : v.data.any Char.isLower <;>
    by_cases h4 : v.data.any Char.isDigit <;>
      simp [h1, h2, h3, h4, Nat.not_lt.mp h1]

end SmartCRM
